import Mathlib

/-
  Shallow embedding of the Cloudlet VM orchestrator
  (src/src/vmm/src/grpc/server.rs).

  The host filesystem is modelled as a predicate `String → Bool` (does a
  path exist), and external processes as a function `Cmd → CmdOutput`
  (what one invocation of a command returns).  Every external build step
  a function invokes is additionally recorded in a returned `List Cmd`
  trace so that claims about which commands run, and in which order, can
  be stated.  `run` is the request handler: its cooperative-task body is
  sequential (the only spawned task, the VMM run loop, is represented by
  a trace event), so it is embedded as a function from the request and
  the outside world to an outcome plus an ordered event trace.
-/

namespace Cloudlet

/-- An external command invocation: program name and arguments
(`Command::new(program).arg(...)` in the source). -/
structure Cmd where
  program : String
  args : List String
deriving DecidableEq, Repr

/-- The captured result of running an external command: exit status and
the captured stdout/stderr (`std::process::Output`). -/
structure CmdOutput where
  status : Int
  stdout : String
  stderr : String
deriving DecidableEq, Repr

/-- The orchestrator error enum `VmmErrors` (payloads abstracted to strings). -/
inductive VmmErrors where
  | VmmNew : String → VmmErrors
  | VmmConfigure : String → VmmErrors
  | VmmRun : String → VmmErrors
deriving DecidableEq, Repr

/-- A tonic `Status` as far as this service constructs or propagates one:
`internal` statuses built by `From<VmmErrors> for Status`, and `rpc`
statuses propagated verbatim from the agent client by `?`. -/
inductive Status where
  | internal : String → Status
  | rpc : String → Status
deriving DecidableEq, Repr

/-- Modelled from the spec: the protobuf `RunVmmRequest` (JobDescriptor).
The `.proto` file is not under src/; the spec gives the fields
`workload_name`, `language` (integer tag), `code`, `env`, `log_level`. -/
structure RunVmmRequest where
  workload_name : String
  language : Int
  code : String
  env : String
  log_level : Int
deriving DecidableEq, Repr

/-- The agent `ExecuteRequest` built by `get_agent_request`. -/
structure ExecuteRequest where
  workload_name : String
  language : String
  action : Int
  code : String
  config_str : String
deriving DecidableEq, Repr

/-- A frame of the agent response stream (`cloudlet.agent.ExecuteResponse`). -/
structure AgentResponse where
  stdout : String
  stderr : String
  exit_code : Int
deriving DecidableEq, Repr

/-- A frame of the orchestrator output stream
(`vmmorchestrator::ExecuteResponse`). -/
structure ExecuteResponse where
  stdout : String
  stderr : String
  exit_code : Int
deriving DecidableEq, Repr

/-- Modelled from the spec: the protobuf `Language` enum over the closed
set Rust, Python, Node (spec: "Language tag encoding: 0=Rust, 1=Python,
2=Node"). -/
inductive Language where
  | rust | python | node
deriving DecidableEq, Repr

/-- Modelled from the spec: the prost-generated `Language::from_i32`,
defined on exactly the tags 0, 1, 2 ("an unknown tag is a hard
validation error"). -/
def Language.from_i32 (n : Int) : Option Language :=
  if n = 0 then some .rust
  else if n = 1 then some .python
  else if n = 2 then some .node
  else none

/-- Modelled from the spec: the prost-generated `Language::as_str_name`,
returning the proto variant name; the source lowercases it to the
language strings "rust" | "python" | "node" of the spec. -/
def Language.as_str_name : Language → String
  | .rust => "RUST"
  | .python => "PYTHON"
  | .node => "NODE"

/-- Rust `str::to_lowercase` as the source applies it to `as_str_name()`
(ASCII input, so per-character lowercasing). -/
def toLowercase (s : String) : String := ⟨s.data.map Char.toLower⟩

/-- From trait impl `From<VmmErrors> for Status` in server.rs. -/
def statusFromVmmErrors : VmmErrors → Status
  | .VmmNew _ => .internal "Error creating VMM"
  | .VmmConfigure _ => .internal "Error configuring VMM"
  | .VmmRun _ => .internal "Error running VMM"

namespace VmmService

/-- The kernel path suffix pushed onto the current directory in `get_kernel`. -/
def kernelSuffix : String :=
  "/tools/kernel/linux-cloud-hypervisor/arch/x86/boot/compressed/vmlinux.bin"

/-- The full kernel path `get_kernel` derives from the current directory. -/
def kernelPath (curr_dir : String) : String := curr_dir ++ kernelSuffix

/-- The kernel build step: `Command::new("sh").arg("./tools/kernel/mkkernel.sh")`. -/
def kernelBuildCmd : Cmd := ⟨"sh", ["./tools/kernel/mkkernel.sh"]⟩

/-- `VmmService::get_kernel`: derive the kernel path from the current
directory; if the file is absent run the kernel build script, logging its
captured stdout/stderr; return `Ok(path)` (the exit status of the build
step is never inspected).  The second component records the external
commands invoked. -/
def get_kernel (fs : String → Bool) (world : Cmd → CmdOutput) (curr_dir : String) :
    Except VmmErrors String × List Cmd :=
  let kernel_entire_path := kernelPath curr_dir
  if fs kernel_entire_path then
    (.ok kernel_entire_path, [])
  else
    -- the source logs _output.stdout / _output.stderr and discards the rest
    let _output := world kernelBuildCmd
    (.ok kernel_entire_path, [kernelBuildCmd])

/-- The agent binary path suffix pushed onto the current directory in
`build_agent`. -/
def agentSuffix : String := "/target/x86_64-unknown-linux-musl/release/agent"

/-- The full agent binary path `build_agent` derives from the current
directory. -/
def agentPath (curr_dir : String) : String := curr_dir ++ agentSuffix

/-- The agent build step:
`cargo build --release --bin agent --target=x86_64-unknown-linux-musl`. -/
def agentBuildCmd : Cmd :=
  ⟨"cargo", ["build", "--release", "--bin", "agent",
             "--target=x86_64-unknown-linux-musl"]⟩

/-- `VmmService::build_agent`: derive the agent binary path; if absent run
the cargo build, logging its captured output; return `Ok(path)`
unconditionally. -/
def build_agent (fs : String → Bool) (world : Cmd → CmdOutput) (curr_dir : String) :
    Except Unit String × List Cmd :=
  let agent_file_name := agentPath curr_dir
  if fs agent_file_name then
    (.ok agent_file_name, [])
  else
    let _output := world agentBuildCmd
    (.ok agent_file_name, [agentBuildCmd])

/-- The initramfs path `get_initramfs` derives from the current directory
and the language string (three successive `push`es). -/
def initramfsPath (curr_dir language : String) : String :=
  curr_dir ++ "/tools/rootfs/" ++ language ++ ".img"

/-- The initramfs build step:
`sh ./tools/rootfs/mkrootfs.sh <image> <agent_file_name> <output_path>`. -/
def mkrootfsCmd (image agent_file_name output_path : String) : Cmd :=
  ⟨"sh", ["./tools/rootfs/mkrootfs.sh", image, agent_file_name, output_path]⟩

/-- `VmmService::get_initramfs`: derive the initramfs path from the
current directory and language; if the file is absent, first ensure the
agent binary is built (`build_agent(...).unwrap()`), then run the rootfs
build script with arguments (image tag "language:alpine", agent binary
path, output path); return `Ok(path)` unconditionally (exit status never
inspected). -/
def get_initramfs (fs : String → Bool) (world : Cmd → CmdOutput)
    (language curr_dir : String) : Except VmmErrors String × List Cmd :=
  let initramfs_entire_file_path := initramfsPath curr_dir language
  let image := language ++ ":alpine"
  if fs initramfs_entire_file_path then
    (.ok initramfs_entire_file_path, [])
  else
    let ba := build_agent fs world curr_dir
    match ba.1 with
    | .ok agent_file_name =>
        let _output := world (mkrootfsCmd image agent_file_name initramfs_entire_file_path)
        (.ok initramfs_entire_file_path,
         ba.2 ++ [mkrootfsCmd image agent_file_name initramfs_entire_file_path])
    | .error _ =>
        -- dead branch: `build_agent` always returns Ok (lemma build_agent_fst),
        -- so the source's `.unwrap()` cannot fire
        (.ok initramfs_entire_file_path, ba.2)

/-- `VmmService::get_agent_request`: build the agent `ExecuteRequest` from
the job.  `none` models the `unreachable!("Invalid language")` panic arm. -/
def get_agent_request (vmm_request : RunVmmRequest) : Option ExecuteRequest :=
  if vmm_request.language = 0 then
    some { workload_name := vmm_request.workload_name
           language := "rust"
           action := 2
           code := vmm_request.code
           config_str := "[build]\nrelease = true" }
  else if vmm_request.language = 1 then
    some { workload_name := vmm_request.workload_name
           language := "python"
           action := 2
           code := vmm_request.code
           config_str := "[build]\nrelease = true" }
  else if vmm_request.language = 2 then
    some { workload_name := vmm_request.workload_name
           language := "node"
           action := 2
           code := vmm_request.code
           config_str := "[build]\nrelease = true" }
  else
    none

end VmmService

/-- The fixed host IP constant of `run`. -/
def HOST_IP : String := "172.29.0.1"

/-- The fixed host netmask constant of `run`. -/
def HOST_NETMASK : String := "255.255.0.0"

/-- The fixed guest IP constant of `run`; the agent is dialed there. -/
def GUEST_IP : String := "172.29.0.2"

/-- The capacity of the bounded mpsc output channel created by `run`
(`tokio::sync::mpsc::channel(4)`). -/
def channelCapacity : Nat := 4

/-- One observable step of `run`, in program order: an external build
command, the VMM lifecycle calls, spawning the VMM run-loop task, the
fixed sleep, the single agent connect attempt, the streaming execute
call, each frame sent into the output channel, and finally handing the
receiver stream back to the caller. -/
inductive Event where
  | cmd : Cmd → Event
  | vmmNew : String → String → String → Event
  | vmmConfigure : Nat → Nat → String → String → Event
  | spawnVmmRun : Event
  | sleepSecs : Nat → Event
  | connectAttempt : String → Nat → Event
  | executeCall : ExecuteRequest → Event
  | sendFrame : ExecuteResponse → Event
  | returnStream : Event
deriving DecidableEq, Repr

/-- How one call of `run` ends: a panic (an `expect`/`unwrap`/
`unreachable!` firing), an error Status returned to the caller via `?`,
a successful return of the receiver stream, whose eventual content is
the recorded list of frames, or divergence — the handler suspends
forever and never returns: the output channel has capacity 4 and its
receiver is not polled until `run` returns, so the fifth
`tx.send(...).await` of the forwarding loop blocks with no one to free a
slot. -/
inductive RunOutcome where
  | panicked : String → RunOutcome
  | err : Status → RunOutcome
  | ok : List ExecuteResponse → RunOutcome
  | diverged : RunOutcome
deriving DecidableEq, Repr

/-- Everything outside `run` that its body consults: the host filesystem,
the external command runner, the current directory, whether `VMM::new`
and `vmm.configure` succeed, whether the agent connect attempt succeeds,
whether the `execute` call succeeds, the frames the agent then emits, and
an optional transport error terminating the agent stream after those
frames. -/
structure World where
  fs : String → Bool
  world : Cmd → CmdOutput
  curr_dir : String
  vmmNewErr : Option String
  vmmConfigureErr : Option String
  connectOk : Bool
  executeErr : Option String
  agentFrames : List AgentResponse
  agentStreamErr : Option String

/-- The copy `run` makes of one agent frame into an orchestrator frame
(fields `stdout`, `stderr`, `exit_code` copied unchanged). -/
def copyFrame (r : AgentResponse) : ExecuteResponse :=
  { stdout := r.stdout, stderr := r.stderr, exit_code := r.exit_code }

/-- `VmmService::run`, embedded sequentially in source order:
channel(4); current_dir; get_kernel(...).unwrap();
Language::from_i32(language).expect("Unknown language");
get_initramfs(...).unwrap(); VMM::new(...)?; vmm.configure(1, 4000, ...)?;
spawn(vmm.run()); sleep(2s) then one connect attempt;
get_agent_request; on a connected client, execute(...)? and forward every
frame of the response stream into the channel; on a connect error, only
log it; finally return the receiver stream.

The channel is bounded (capacity 4) and its receiver is handed to the
caller only after the forwarding loop has finished, so nobody polls it
while the loop runs: the first 4 sends buffer in the channel, and a
fifth send suspends forever.  Hence when the agent emits more than
`channelCapacity` frames the handler diverges — it never returns a
stream and delivers nothing — with only the first 4 sends completed. -/
def run (w : World) (req : RunVmmRequest) : RunOutcome × List Event :=
  let curr_dir := w.curr_dir
  let kres := VmmService.get_kernel w.fs w.world curr_dir
  let t0 := kres.2.map Event.cmd
  match kres.1 with
  | .error _ => (.panicked "called unwrap on an Err value", t0)
  | .ok kernel_path =>
    match Language.from_i32 req.language with
    | none => (.panicked "Unknown language", t0)
    | some language =>
      let ires := VmmService.get_initramfs w.fs w.world
        (toLowercase language.as_str_name) curr_dir
      let t1 := t0 ++ ires.2.map Event.cmd
      match ires.1 with
      | .error _ => (.panicked "called unwrap on an Err value", t1)
      | .ok initramfs_path =>
        let t2 := t1 ++ [Event.vmmNew HOST_IP HOST_NETMASK GUEST_IP]
        match w.vmmNewErr with
        | some e => (.err (statusFromVmmErrors (.VmmNew e)), t2)
        | none =>
          let t3 := t2 ++ [Event.vmmConfigure 1 4000 kernel_path initramfs_path]
          match w.vmmConfigureErr with
          | some e => (.err (statusFromVmmErrors (.VmmConfigure e)), t3)
          | none =>
            let t4 := t3 ++ [Event.spawnVmmRun, Event.sleepSecs 2,
                             Event.connectAttempt GUEST_IP 50051]
            match VmmService.get_agent_request req with
            | none => (.panicked "Invalid language", t4)
            | some agent_request =>
              if w.connectOk then
                let t5 := t4 ++ [Event.executeCall agent_request]
                match w.executeErr with
                | some e => (.err (.rpc e), t5)
                | none =>
                  if w.agentFrames.length ≤ channelCapacity then
                    -- at most 4 frames: every tx.send buffers and completes
                    let t6 := t5 ++ w.agentFrames.map
                      (fun r => Event.sendFrame (copyFrame r))
                    match w.agentStreamErr with
                    | some e => (.err (.rpc e), t6)
                    | none =>
                      (.ok (w.agentFrames.map copyFrame),
                       t6 ++ [Event.returnStream])
                  else
                    -- the receiver is unread until run returns, so after 4
                    -- buffered sends the fifth tx.send never completes
                    (.diverged,
                     t5 ++ (w.agentFrames.take channelCapacity).map
                       (fun r => Event.sendFrame (copyFrame r)))
              else
                -- the source only logs the connect error and falls through
                (.ok [], t4 ++ [Event.returnStream])

/-- The ExecuteRequest `get_agent_request` builds for a validated language. -/
def agentRequestOf (req : RunVmmRequest) (l : Language) : ExecuteRequest :=
  { workload_name := req.workload_name
    language := toLowercase l.as_str_name
    action := 2
    code := req.code
    config_str := "[build]\nrelease = true" }

/-- The frames `run` actually sent into the output channel, read off an
event trace in order. -/
def sentFrames (t : List Event) : List ExecuteResponse :=
  t.filterMap fun e =>
    match e with
    | .sendFrame f => some f
    | _ => none

/-- The connect attempts recorded in a trace, in order, as (ip, port). -/
def connectAttempts (t : List Event) : List (String × Nat) :=
  t.filterMap fun e =>
    match e with
    | .connectAttempt ip p => some (ip, p)
    | _ => none

/-- A host filesystem on which every artifact already exists. -/
def fsAll : String → Bool := fun _ => true

/-- A host filesystem on which no artifact exists. -/
def fsNone : String → Bool := fun _ => false

/-- An external-command runner whose every command exits 0 silently. -/
def execSilent : Cmd → CmdOutput := fun _ => ⟨0, "", ""⟩

/-- An external-command runner whose every command exits 1 with output. -/
def execFailing : Cmd → CmdOutput := fun _ => ⟨1, "build out", "build err"⟩

/-- A well-formed Rust job request. -/
def reqRust : RunVmmRequest :=
  { workload_name := "hello", language := 0,
    code := "fn main() \x7b\x7d",
    env := "[build]\nrelease = true", log_level := 2 }

/-- A request carrying the unknown language tag 3. -/
def reqBadLang : RunVmmRequest :=
  { workload_name := "hello", language := 3, code := "x",
    env := "e", log_level := 2 }

/-- A well-formed request whose code field is empty. -/
def reqEmptyCode : RunVmmRequest :=
  { workload_name := "hello", language := 0, code := "",
    env := "e", log_level := 2 }

/-- A first agent frame: a stdout chunk. -/
def frameA : AgentResponse := { stdout := "hi\n", stderr := "", exit_code := 0 }

/-- A terminal agent frame: a stderr chunk and exit code 7. -/
def frameB : AgentResponse := { stdout := "", stderr := "oops", exit_code := 7 }

/-- A world in which everything succeeds and the agent emits two frames. -/
def wGood : World :=
  { fs := fsAll, world := execSilent, curr_dir := "/cloudlet",
    vmmNewErr := none, vmmConfigureErr := none, connectOk := true,
    executeErr := none, agentFrames := [frameA, frameB], agentStreamErr := none }

/-- A world with an empty filesystem (every artifact must be built). -/
def wFreshInstall : World :=
  { fs := fsNone, world := execSilent, curr_dir := "/cloudlet",
    vmmNewErr := none, vmmConfigureErr := none, connectOk := true,
    executeErr := none, agentFrames := [], agentStreamErr := none }

/-- A world in which the single agent connect attempt fails. -/
def wConnFail : World :=
  { fs := fsAll, world := execSilent, curr_dir := "/cloudlet",
    vmmNewErr := none, vmmConfigureErr := none, connectOk := false,
    executeErr := none, agentFrames := [], agentStreamErr := none }

/-- A world in which everything succeeds and the agent emits one frame. -/
def wOneFrame : World :=
  { fs := fsAll, world := execSilent, curr_dir := "/cloudlet",
    vmmNewErr := none, vmmConfigureErr := none, connectOk := true,
    executeErr := none, agentFrames := [frameA], agentStreamErr := none }

/-- A world in which everything succeeds but the agent emits five frames,
one more than the output channel can buffer. -/
def wFive : World :=
  { fs := fsAll, world := execSilent, curr_dir := "/cloudlet",
    vmmNewErr := none, vmmConfigureErr := none, connectOk := true,
    executeErr := none,
    agentFrames := [frameA, frameA, frameA, frameA, frameB],
    agentStreamErr := none }

theorem get_kernel_fst (fs : String → Bool) (world : Cmd → CmdOutput) (d : String) :
    (VmmService.get_kernel fs world d).1 = .ok (VmmService.kernelPath d) := by
  by_cases h : fs (VmmService.kernelPath d) = true <;>
    simp [VmmService.get_kernel, h]

theorem build_agent_fst (fs : String → Bool) (world : Cmd → CmdOutput) (d : String) :
    (VmmService.build_agent fs world d).1 = .ok (VmmService.agentPath d) := by
  by_cases h : fs (VmmService.agentPath d) = true <;>
    simp [VmmService.build_agent, h]

theorem get_initramfs_fst (fs : String → Bool) (world : Cmd → CmdOutput) (lang d : String) :
    (VmmService.get_initramfs fs world lang d).1 =
      .ok (VmmService.initramfsPath d lang) := by
  by_cases h : fs (VmmService.initramfsPath d lang) = true <;>
    simp [VmmService.get_initramfs, h, build_agent_fst]

theorem get_kernel_snd_hit (fs : String → Bool) (world : Cmd → CmdOutput) (d : String)
    (h : fs (VmmService.kernelPath d) = true) :
    (VmmService.get_kernel fs world d).2 = [] := by
  simp [VmmService.get_kernel, h]

theorem get_kernel_snd_miss (fs : String → Bool) (world : Cmd → CmdOutput) (d : String)
    (h : fs (VmmService.kernelPath d) = false) :
    (VmmService.get_kernel fs world d).2 = [VmmService.kernelBuildCmd] := by
  simp [VmmService.get_kernel, h]

theorem build_agent_snd_hit (fs : String → Bool) (world : Cmd → CmdOutput) (d : String)
    (h : fs (VmmService.agentPath d) = true) :
    (VmmService.build_agent fs world d).2 = [] := by
  simp [VmmService.build_agent, h]

theorem build_agent_snd_miss (fs : String → Bool) (world : Cmd → CmdOutput) (d : String)
    (h : fs (VmmService.agentPath d) = false) :
    (VmmService.build_agent fs world d).2 = [VmmService.agentBuildCmd] := by
  simp [VmmService.build_agent, h]

theorem get_initramfs_snd_hit (fs : String → Bool) (world : Cmd → CmdOutput) (lang d : String)
    (h : fs (VmmService.initramfsPath d lang) = true) :
    (VmmService.get_initramfs fs world lang d).2 = [] := by
  simp [VmmService.get_initramfs, h]

theorem get_initramfs_snd_miss (fs : String → Bool) (world : Cmd → CmdOutput) (lang d : String)
    (h : fs (VmmService.initramfsPath d lang) = false) :
    (VmmService.get_initramfs fs world lang d).2 =
      (VmmService.build_agent fs world d).2 ++
        [VmmService.mkrootfsCmd (lang ++ ":alpine") (VmmService.agentPath d)
          (VmmService.initramfsPath d lang)] := by
  have hb := build_agent_fst fs world d
  unfold VmmService.get_initramfs
  simp only [h, Bool.false_eq_true, if_false]
  split
  · next heq => rw [hb] at heq; cases heq; rfl
  · next heq => rw [hb] at heq; cases heq

theorem get_agent_request_eq (req : RunVmmRequest) (l : Language)
    (h : Language.from_i32 req.language = some l) :
    VmmService.get_agent_request req = some (agentRequestOf req l) := by
  unfold Language.from_i32 at h
  unfold VmmService.get_agent_request agentRequestOf
  split_ifs at h ⊢ with h0 h1 h2
  · injection h with h
    subst h
    have hs : toLowercase (Language.as_str_name .rust) = "rust" := by decide
    simp [hs]
  · injection h with h
    subst h
    have hs : toLowercase (Language.as_str_name .python) = "python" := by decide
    simp [hs]
  · injection h with h
    subst h
    have hs : toLowercase (Language.as_str_name .node) = "node" := by decide
    simp [hs]

theorem sentFrames_append (a b : List Event) :
    sentFrames (a ++ b) = sentFrames a ++ sentFrames b := by
  simp [sentFrames, List.filterMap_append]

theorem sentFrames_cmds (cs : List Cmd) :
    sentFrames (cs.map Event.cmd) = [] := by
  induction cs with
  | nil => rfl
  | cons c cs ih => simp [sentFrames, List.filterMap_cons]

theorem sentFrames_frames (frames : List AgentResponse) :
    sentFrames (frames.map fun r => Event.sendFrame (copyFrame r)) =
      frames.map copyFrame := by
  induction frames with
  | nil => rfl
  | cons f fsr ih => simpa [sentFrames, List.filterMap_cons] using ih

theorem returnStream_not_mem_sends (n : Nat) (frames : List AgentResponse) :
    Event.returnStream ∉
      List.take n (frames.map fun r => Event.sendFrame (copyFrame r)) := by
  intro hmem
  have h2 : Event.returnStream ∈
      frames.map (fun r => Event.sendFrame (copyFrame r)) :=
    List.take_subset n _ hmem
  rw [List.mem_map] at h2
  obtain ⟨r, hr1, hr2⟩ := h2
  exact Event.noConfusion hr2

theorem connectAttempts_append (a b : List Event) :
    connectAttempts (a ++ b) = connectAttempts a ++ connectAttempts b := by
  simp [connectAttempts, List.filterMap_append]

theorem connectAttempts_cmds (cs : List Cmd) :
    connectAttempts (cs.map Event.cmd) = [] := by
  induction cs with
  | nil => rfl
  | cons c cs ih => simp [connectAttempts, List.filterMap_cons]

theorem connectAttempts_frames (frames : List AgentResponse) :
    connectAttempts (frames.map fun r => Event.sendFrame (copyFrame r)) = [] := by
  induction frames with
  | nil => rfl
  | cons f fsr ih => simp [connectAttempts, List.filterMap_cons]

theorem initramfsPath_inj (d l1 l2 : String)
    (h : VmmService.initramfsPath d l1 = VmmService.initramfsPath d l2) :
    l1 = l2 := by
  unfold VmmService.initramfsPath at h
  have h2 := congrArg String.data h
  simp only [String.data_append] at h2
  have h3 := List.append_cancel_right h2
  have h4 := List.append_cancel_left h3
  cases l1
  cases l2
  simp_all

/-- Characterization of `run` on the all-success path — which requires
the agent to emit at most `channelCapacity` frames, else the forwarding
loop never completes: outcome and full event trace. -/
theorem run_success (w : World) (req : RunVmmRequest) (l : Language)
    (hl : Language.from_i32 req.language = some l)
    (hnew : w.vmmNewErr = none) (hconf : w.vmmConfigureErr = none)
    (hconn : w.connectOk = true) (hexec : w.executeErr = none)
    (hstream : w.agentStreamErr = none)
    (hcap : w.agentFrames.length ≤ channelCapacity) :
    run w req =
      (.ok (w.agentFrames.map copyFrame),
       (VmmService.get_kernel w.fs w.world w.curr_dir).2.map Event.cmd
       ++ (VmmService.get_initramfs w.fs w.world (toLowercase l.as_str_name)
             w.curr_dir).2.map Event.cmd
       ++ [Event.vmmNew HOST_IP HOST_NETMASK GUEST_IP,
           Event.vmmConfigure 1 4000 (VmmService.kernelPath w.curr_dir)
             (VmmService.initramfsPath w.curr_dir (toLowercase l.as_str_name)),
           Event.spawnVmmRun, Event.sleepSecs 2,
           Event.connectAttempt GUEST_IP 50051,
           Event.executeCall (agentRequestOf req l)]
       ++ w.agentFrames.map (fun r => Event.sendFrame (copyFrame r))
       ++ [Event.returnStream]) := by
  unfold run
  simp [hl, hnew, hconf, hconn, hexec, hstream, hcap, get_kernel_fst,
        get_initramfs_fst, get_agent_request_eq req l hl, List.append_assoc]

/-- Characterization of `run` when the agent emits more frames than the
output channel can buffer: the fifth send never completes, so `run`
diverges with exactly the first `channelCapacity` frames sent and no
stream returned. -/
theorem run_overflow (w : World) (req : RunVmmRequest) (l : Language)
    (hl : Language.from_i32 req.language = some l)
    (hnew : w.vmmNewErr = none) (hconf : w.vmmConfigureErr = none)
    (hconn : w.connectOk = true) (hexec : w.executeErr = none)
    (hover : channelCapacity < w.agentFrames.length) :
    (run w req).1 = .diverged ∧
    (run w req).2 =
      (VmmService.get_kernel w.fs w.world w.curr_dir).2.map Event.cmd
      ++ (VmmService.get_initramfs w.fs w.world (toLowercase l.as_str_name)
            w.curr_dir).2.map Event.cmd
      ++ [Event.vmmNew HOST_IP HOST_NETMASK GUEST_IP,
          Event.vmmConfigure 1 4000 (VmmService.kernelPath w.curr_dir)
            (VmmService.initramfsPath w.curr_dir (toLowercase l.as_str_name)),
          Event.spawnVmmRun, Event.sleepSecs 2,
          Event.connectAttempt GUEST_IP 50051,
          Event.executeCall (agentRequestOf req l)]
      ++ (w.agentFrames.take channelCapacity).map
           (fun r => Event.sendFrame (copyFrame r)) := by
  have hn : ¬ (w.agentFrames.length ≤ channelCapacity) := Nat.not_le.mpr hover
  constructor <;>
    (unfold run
     simp [hl, hnew, hconf, hconn, hexec, hn, get_kernel_fst,
           get_initramfs_fst, get_agent_request_eq req l hl, List.append_assoc])

/-- Characterization of `run` when the single agent connect attempt
fails: outcome and full event trace. -/
theorem run_connect_fail (w : World) (req : RunVmmRequest) (l : Language)
    (hl : Language.from_i32 req.language = some l)
    (hnew : w.vmmNewErr = none) (hconf : w.vmmConfigureErr = none)
    (hconn : w.connectOk = false) :
    run w req =
      (.ok [],
       (VmmService.get_kernel w.fs w.world w.curr_dir).2.map Event.cmd
       ++ (VmmService.get_initramfs w.fs w.world (toLowercase l.as_str_name)
             w.curr_dir).2.map Event.cmd
       ++ [Event.vmmNew HOST_IP HOST_NETMASK GUEST_IP,
           Event.vmmConfigure 1 4000 (VmmService.kernelPath w.curr_dir)
             (VmmService.initramfsPath w.curr_dir (toLowercase l.as_str_name)),
           Event.spawnVmmRun, Event.sleepSecs 2,
           Event.connectAttempt GUEST_IP 50051,
           Event.returnStream]) := by
  unfold run
  simp [hl, hnew, hconf, hconn, get_kernel_fst, get_initramfs_fst,
        get_agent_request_eq req l hl, List.append_assoc]

/-- Characterization of `run` on an unknown language tag: it panics with
"Unknown language" right after kernel resolution; the trace is exactly
the kernel-resolution build commands. -/
theorem run_unknown_lang (w : World) (req : RunVmmRequest)
    (hl : Language.from_i32 req.language = none) :
    run w req =
      (.panicked "Unknown language",
       (VmmService.get_kernel w.fs w.world w.curr_dir).2.map Event.cmd) := by
  unfold run
  simp [hl, get_kernel_fst]

/-- C1 counterexample: an agent emitting five frames (one more than the
output channel's capacity 4) on an otherwise all-success run: the
forwarding loop blocks forever on the fifth send, `run` diverges — it
never returns a stream, so the delivered frames are not the agent's five
emitted frames (nothing at all is delivered) — refuting the universal
exact-delivery claim. -/
theorem C1_counterexample :
    wFive.agentFrames.length = 5 ∧
    (run wFive reqRust).1 = .diverged := by
  have h := run_overflow wFive reqRust .rust (by decide) rfl rfl rfl rfl
    (by decide)
  exact ⟨rfl, h.1⟩

/-- C1 (amended): for every run request that reaches the agent execution
phase, if the agent emits at most `channelCapacity` (= 4) frames and the
stream closes normally, the frames delivered on the output stream are
exactly the agent's emitted frames in emission order — field-for-field
copies (stdout, stderr, exit_code unchanged), no reordering, coalescing
or splitting — so the concatenated stdout, concatenated stderr and final
exit code equal what the agent emitted; but if the agent emits more than
`channelCapacity` frames, the handler blocks forever on the fifth send
into the unread channel: it never returns and no frame is delivered. -/
theorem C1_delivery_bounded_by_capacity (w : World) (req : RunVmmRequest)
    (l : Language) (hl : Language.from_i32 req.language = some l)
    (hnew : w.vmmNewErr = none) (hconf : w.vmmConfigureErr = none)
    (hconn : w.connectOk = true) (hexec : w.executeErr = none)
    (hstream : w.agentStreamErr = none) :
    (w.agentFrames.length ≤ channelCapacity →
      (run w req).1 = .ok (w.agentFrames.map copyFrame) ∧
      (w.agentFrames.map copyFrame).length = w.agentFrames.length ∧
      (w.agentFrames.map copyFrame).map ExecuteResponse.stdout =
        w.agentFrames.map AgentResponse.stdout ∧
      (w.agentFrames.map copyFrame).map ExecuteResponse.stderr =
        w.agentFrames.map AgentResponse.stderr ∧
      (w.agentFrames.map copyFrame).map ExecuteResponse.exit_code =
        w.agentFrames.map AgentResponse.exit_code ∧
      String.join ((w.agentFrames.map copyFrame).map ExecuteResponse.stdout) =
        String.join (w.agentFrames.map AgentResponse.stdout) ∧
      String.join ((w.agentFrames.map copyFrame).map ExecuteResponse.stderr) =
        String.join (w.agentFrames.map AgentResponse.stderr) ∧
      ((w.agentFrames.map copyFrame).getLast?).map ExecuteResponse.exit_code =
        (w.agentFrames.getLast?).map AgentResponse.exit_code) ∧
    (channelCapacity < w.agentFrames.length →
      (run w req).1 = .diverged ∧
      Event.returnStream ∉ (run w req).2) := by
  constructor
  · intro hcap
    have h := run_success w req l hl hnew hconf hconn hexec hstream hcap
    have hout : (w.agentFrames.map copyFrame).map ExecuteResponse.stdout =
        w.agentFrames.map AgentResponse.stdout := by
      simp [List.map_map, Function.comp, copyFrame]
    have herr : (w.agentFrames.map copyFrame).map ExecuteResponse.stderr =
        w.agentFrames.map AgentResponse.stderr := by
      simp [List.map_map, Function.comp, copyFrame]
    have hexit : (w.agentFrames.map copyFrame).map ExecuteResponse.exit_code =
        w.agentFrames.map AgentResponse.exit_code := by
      simp [List.map_map, Function.comp, copyFrame]
    refine ⟨by rw [h], by simp, hout, herr, hexit,
            congrArg String.join hout, congrArg String.join herr, ?_⟩
    rw [List.getLast?_map]
    cases w.agentFrames.getLast? <;> simp [copyFrame]
  · intro hover
    have h := run_overflow w req l hl hnew hconf hconn hexec hover
    refine ⟨h.1, ?_⟩
    rw [h.2]
    simp [List.mem_append, List.mem_map]
    exact returnStream_not_mem_sends channelCapacity w.agentFrames

/-- Witness for the amended C1: exact delivery at a concrete two-frame
run, divergence at a concrete five-frame run. -/
theorem C1_witness :
    ((run wGood reqRust).1 = .ok (wGood.agentFrames.map copyFrame) ∧
     (wGood.agentFrames.map copyFrame).length = wGood.agentFrames.length ∧
     (wGood.agentFrames.map copyFrame).map ExecuteResponse.stdout =
       wGood.agentFrames.map AgentResponse.stdout ∧
     (wGood.agentFrames.map copyFrame).map ExecuteResponse.stderr =
       wGood.agentFrames.map AgentResponse.stderr ∧
     (wGood.agentFrames.map copyFrame).map ExecuteResponse.exit_code =
       wGood.agentFrames.map AgentResponse.exit_code ∧
     String.join ((wGood.agentFrames.map copyFrame).map ExecuteResponse.stdout) =
       String.join (wGood.agentFrames.map AgentResponse.stdout) ∧
     String.join ((wGood.agentFrames.map copyFrame).map ExecuteResponse.stderr) =
       String.join (wGood.agentFrames.map AgentResponse.stderr) ∧
     ((wGood.agentFrames.map copyFrame).getLast?).map ExecuteResponse.exit_code =
       (wGood.agentFrames.getLast?).map AgentResponse.exit_code) ∧
    ((run wFive reqRust).1 = .diverged ∧
     Event.returnStream ∉ (run wFive reqRust).2) :=
  ⟨(C1_delivery_bounded_by_capacity wGood reqRust .rust (by decide)
      rfl rfl rfl rfl rfl).1 (by decide),
   (C1_delivery_bounded_by_capacity wFive reqRust .rust (by decide)
      rfl rfl rfl rfl rfl).2 (by decide)⟩

/-- C5: for every run request with language tag in 0, 1, 2, the
ExecuteRequest built by `get_agent_request` copies `workload_name` and
`code` whole from the job, maps the tag to its string name (0 to "rust",
1 to "python", 2 to "node"), and fixes `action` to the integer 2 and
`config_str` to the literal "[build]\nrelease = true". -/
theorem C5_agent_request_fields (req : RunVmmRequest)
    (h : req.language = 0 ∨ req.language = 1 ∨ req.language = 2) :
    ∃ er, VmmService.get_agent_request req = some er ∧
      er.workload_name = req.workload_name ∧
      er.code = req.code ∧
      er.action = 2 ∧
      er.config_str = "[build]\nrelease = true" ∧
      er.language = (if req.language = 0 then "rust"
                     else if req.language = 1 then "python" else "node") := by
  rcases h with h | h | h
  · refine ⟨{ workload_name := req.workload_name, language := "rust", action := 2,
              code := req.code, config_str := "[build]\nrelease = true" },
            by simp [VmmService.get_agent_request, h], rfl, rfl, rfl, rfl,
            by simp [h]⟩
  · refine ⟨{ workload_name := req.workload_name, language := "python", action := 2,
              code := req.code, config_str := "[build]\nrelease = true" },
            by simp [VmmService.get_agent_request, h], rfl, rfl, rfl, rfl,
            by simp [h]⟩
  · refine ⟨{ workload_name := req.workload_name, language := "node", action := 2,
              code := req.code, config_str := "[build]\nrelease = true" },
            by simp [VmmService.get_agent_request, h], rfl, rfl, rfl, rfl,
            by simp [h]⟩

/-- Witness for C5 at the concrete Rust request. -/
theorem C5_witness :
    ∃ er, VmmService.get_agent_request reqRust = some er ∧
      er.workload_name = reqRust.workload_name ∧
      er.code = reqRust.code ∧
      er.action = 2 ∧
      er.config_str = "[build]\nrelease = true" ∧
      er.language = (if reqRust.language = 0 then "rust"
                     else if reqRust.language = 1 then "python" else "node") :=
  C5_agent_request_fields reqRust (Or.inl (by decide))

/-- C9: `get_agent_request` is total exactly on the valid tags: it
returns some ExecuteRequest iff the request's language tag is 0, 1 or 2
(on any other tag it hits the `unreachable!` arm, modelled as `none`);
and under the precondition that `Language::from_i32` validated the tag,
the panic arm is unreachable. -/
theorem C9_get_agent_request_total_on_valid_tags (req : RunVmmRequest) :
    ((VmmService.get_agent_request req).isSome = true ↔
      (req.language = 0 ∨ req.language = 1 ∨ req.language = 2)) ∧
    (∀ l, Language.from_i32 req.language = some l →
      (VmmService.get_agent_request req).isSome = true) := by
  constructor
  · unfold VmmService.get_agent_request
    split_ifs with h0 h1 h2
    · simp [h0]
    · simp [h1]
    · simp [h2]
    · simp [h0, h1, h2]
  · intro l hl
    rw [get_agent_request_eq req l hl]
    rfl

/-- Witness for C9: a valid tag yields a request, the tag 3 does not. -/
theorem C9_witness :
    (VmmService.get_agent_request reqRust).isSome = true ∧
    (VmmService.get_agent_request reqBadLang).isSome = false := by
  refine ⟨(C9_get_agent_request_total_on_valid_tags reqRust).2 Language.rust
            (by decide), ?_⟩
  have h2 := (C9_get_agent_request_total_on_valid_tags reqBadLang).1
  have h3 : ¬ (reqBadLang.language = 0 ∨ reqBadLang.language = 1 ∨
      reqBadLang.language = 2) := by decide
  cases hb : (VmmService.get_agent_request reqBadLang).isSome with
  | false => rfl
  | true => exact absurd (h2.mp hb) h3

/-- C4 counterexample: on an empty filesystem with a build runner whose
kernel build step exits 1 (and therefore leaves no target file), kernel
resolution nevertheless returns Ok with the derived path — the non-zero
exit is not reported as an error, refuting the claim that resolution
succeeds only when the build step exits 0 and the target file exists. -/
theorem C4_counterexample :
    (VmmService.get_kernel fsNone execFailing "/cloudlet").1 =
      .ok (VmmService.kernelPath "/cloudlet") ∧
    (VmmService.get_kernel fsNone execFailing "/cloudlet").2 =
      [VmmService.kernelBuildCmd] ∧
    (execFailing VmmService.kernelBuildCmd).status = 1 ∧
    fsNone (VmmService.kernelPath "/cloudlet") = false := by
  refine ⟨get_kernel_fst fsNone execFailing "/cloudlet", ?_, rfl, rfl⟩
  exact get_kernel_snd_miss fsNone execFailing "/cloudlet" rfl

/-- C4 (amended): the resolvers invoke the build step when the artifact
is absent but never inspect its exit status or recheck the target: the
captured stdout/stderr are only logged, and resolution returns Ok with
the derived path unconditionally, for every filesystem state and every
build-step outcome. -/
theorem C4_build_status_ignored (fs : String → Bool) (world : Cmd → CmdOutput)
    (d lang : String) :
    (VmmService.get_kernel fs world d).1 = .ok (VmmService.kernelPath d) ∧
    (VmmService.get_initramfs fs world lang d).1 =
      .ok (VmmService.initramfsPath d lang) :=
  ⟨get_kernel_fst fs world d, get_initramfs_fst fs world lang d⟩

/-- C7: the artifact resolvers are idempotent: the returned artifact path
depends only on the working directory (and the language, for the
initramfs) — it is identical across any two calls, whatever the
filesystem state or build-step behaviour in between — and when the
artifact file already exists no external build step is invoked. -/
theorem C7_resolvers_idempotent (fs1 fs2 : String → Bool)
    (w1 w2 : Cmd → CmdOutput) (d lang : String) :
    (VmmService.get_kernel fs1 w1 d).1 = (VmmService.get_kernel fs2 w2 d).1 ∧
    (VmmService.get_initramfs fs1 w1 lang d).1 =
      (VmmService.get_initramfs fs2 w2 lang d).1 ∧
    (fs1 (VmmService.kernelPath d) = true →
      (VmmService.get_kernel fs1 w1 d).2 = []) ∧
    (fs1 (VmmService.initramfsPath d lang) = true →
      (VmmService.get_initramfs fs1 w1 lang d).2 = []) := by
  refine ⟨?_, ?_, get_kernel_snd_hit fs1 w1 d, get_initramfs_snd_hit fs1 w1 lang d⟩
  · rw [get_kernel_fst fs1 w1 d, get_kernel_fst fs2 w2 d]
  · rw [get_initramfs_fst fs1 w1 lang d, get_initramfs_fst fs2 w2 lang d]

/-- Witness for C7: the path is stable between a hit and a miss call, and
a call on a filesystem where the artifacts exist invokes no command. -/
theorem C7_witness :
    (VmmService.get_kernel fsAll execSilent "/cloudlet").1 =
      (VmmService.get_kernel fsNone execFailing "/cloudlet").1 ∧
    (VmmService.get_initramfs fsAll execSilent "rust" "/cloudlet").1 =
      (VmmService.get_initramfs fsNone execFailing "rust" "/cloudlet").1 ∧
    (VmmService.get_kernel fsAll execSilent "/cloudlet").2 = [] ∧
    (VmmService.get_initramfs fsAll execSilent "rust" "/cloudlet").2 = [] := by
  have h := C7_resolvers_idempotent fsAll fsNone execSilent execFailing
    "/cloudlet" "rust"
  exact ⟨h.1, h.2.1, h.2.2.1 rfl, h.2.2.2 rfl⟩

/-- C8: the initramfs path is derived purely from the language — it has
the form curr_dir ++ "/tools/rootfs/" ++ language ++ ".img", and for a
fixed install directory distinct languages give distinct paths — and
when the initramfs is absent the resolver first runs the agent-ensuring
build commands (`build_agent`, which invokes the cargo build exactly when
the agent binary is absent) and only then the initramfs build step, whose
arguments are exactly (image tag "language:alpine", agent binary path,
output path), in that order. -/
theorem C8_initramfs_derivation (fs : String → Bool) (world : Cmd → CmdOutput)
    (d lang l1 l2 : String) (hne : l1 ≠ l2)
    (habs : fs (VmmService.initramfsPath d lang) = false) :
    VmmService.initramfsPath d lang = d ++ "/tools/rootfs/" ++ lang ++ ".img" ∧
    VmmService.initramfsPath d l1 ≠ VmmService.initramfsPath d l2 ∧
    (VmmService.get_initramfs fs world lang d).2 =
      (VmmService.build_agent fs world d).2 ++
        [VmmService.mkrootfsCmd (lang ++ ":alpine") (VmmService.agentPath d)
          (VmmService.initramfsPath d lang)] ∧
    (fs (VmmService.agentPath d) = false →
      (VmmService.build_agent fs world d).2 = [VmmService.agentBuildCmd]) ∧
    (fs (VmmService.agentPath d) = true →
      (VmmService.build_agent fs world d).2 = []) := by
  refine ⟨rfl, ?_, get_initramfs_snd_miss fs world lang d habs,
          build_agent_snd_miss fs world d, build_agent_snd_hit fs world d⟩
  intro hcontra
  exact hne (initramfsPath_inj d l1 l2 hcontra)

/-- Witness for C8 on a clean install: "rust" and "python" paths differ,
and the build trace is the cargo agent build followed by the mkrootfs
invocation with its three arguments. -/
theorem C8_witness :
    VmmService.initramfsPath "/cloudlet" "rust" =
      "/cloudlet" ++ "/tools/rootfs/" ++ "rust" ++ ".img" ∧
    VmmService.initramfsPath "/cloudlet" "rust" ≠
      VmmService.initramfsPath "/cloudlet" "python" ∧
    (VmmService.get_initramfs fsNone execSilent "rust" "/cloudlet").2 =
      (VmmService.build_agent fsNone execSilent "/cloudlet").2 ++
        [VmmService.mkrootfsCmd ("rust" ++ ":alpine")
          (VmmService.agentPath "/cloudlet")
          (VmmService.initramfsPath "/cloudlet" "rust")] ∧
    (VmmService.build_agent fsNone execSilent "/cloudlet").2 =
      [VmmService.agentBuildCmd] := by
  have h := C8_initramfs_derivation fsNone execSilent "/cloudlet" "rust"
    "rust" "python" (by decide) rfl
  exact ⟨h.1, h.2.1, h.2.2.1, h.2.2.2.1 rfl⟩

/-- C2 counterexample: on a clean install, a request with the unknown
language tag 3 does not receive an invalid-argument error and is not
rejected before artifact resolution: `run` first resolves the kernel —
the kernel build command is invoked — and then aborts with the panic
"Unknown language" (the `expect` on `Language::from_i32`), which is a
process abort, not a returned Validation status. -/
theorem C2_counterexample :
    (run wFreshInstall reqBadLang).1 = .panicked "Unknown language" ∧
    Event.cmd VmmService.kernelBuildCmd ∈ (run wFreshInstall reqBadLang).2 := by
  have h := run_unknown_lang wFreshInstall reqBadLang (by decide)
  rw [h]
  refine ⟨rfl, ?_⟩
  rw [get_kernel_snd_miss wFreshInstall.fs wFreshInstall.world
    wFreshInstall.curr_dir rfl]
  simp

/-- C2 (amended): for every run request whose language tag is not in
0, 1, 2, the request aborts with the panic "Unknown language" raised by
the `expect` on `Language::from_i32` — after kernel resolution (the
trace is exactly the kernel-resolution build commands) but before
initramfs resolution, VM construction, the VMM run task, frame delivery,
or returning a stream; no VM is started and no frames are delivered. -/
theorem C2_unknown_tag_panics_after_kernel (w : World) (req : RunVmmRequest)
    (hl : Language.from_i32 req.language = none) :
    (run w req).1 = .panicked "Unknown language" ∧
    (run w req).2 =
      (VmmService.get_kernel w.fs w.world w.curr_dir).2.map Event.cmd ∧
    Event.vmmNew HOST_IP HOST_NETMASK GUEST_IP ∉ (run w req).2 ∧
    Event.spawnVmmRun ∉ (run w req).2 ∧
    sentFrames (run w req).2 = [] ∧
    Event.returnStream ∉ (run w req).2 := by
  have h := run_unknown_lang w req hl
  rw [h]
  refine ⟨rfl, rfl, ?_, ?_, sentFrames_cmds _, ?_⟩ <;> simp

/-- Witness for the amended C2 at the concrete tag 3 on a clean install. -/
theorem C2_amended_witness :
    (run wFreshInstall reqBadLang).1 = .panicked "Unknown language" ∧
    (run wFreshInstall reqBadLang).2 =
      (VmmService.get_kernel wFreshInstall.fs wFreshInstall.world
        wFreshInstall.curr_dir).2.map Event.cmd ∧
    Event.vmmNew HOST_IP HOST_NETMASK GUEST_IP ∉ (run wFreshInstall reqBadLang).2 ∧
    Event.spawnVmmRun ∉ (run wFreshInstall reqBadLang).2 ∧
    sentFrames (run wFreshInstall reqBadLang).2 = [] ∧
    Event.returnStream ∉ (run wFreshInstall reqBadLang).2 :=
  C2_unknown_tag_panics_after_kernel wFreshInstall reqBadLang (by decide)

/-- C3 counterexample: a run on which the single agent connect attempt
fails returns Ok with an (empty) output stream — the connect failure
does not surface to the caller as an AgentConnect/ConnectError error,
refuting the claim that the request fails. -/
theorem C3_counterexample :
    (run wConnFail reqRust).1 = .ok [] := by
  have h := run_connect_fail wConnFail reqRust .rust (by decide) rfl rfl rfl
  rw [h]

/-- C3 (amended): when the agent connect attempt fails after the fixed
2-second sleep and single attempt, the connect error is only logged: the
caller receives a successful, error-free, empty output stream (no frames
are delivered), and the VMM task that was spawned is left running — no
error surfaces and no teardown happens. -/
theorem C3_connect_fail_only_logged (w : World) (req : RunVmmRequest)
    (l : Language) (hl : Language.from_i32 req.language = some l)
    (hnew : w.vmmNewErr = none) (hconf : w.vmmConfigureErr = none)
    (hconn : w.connectOk = false) :
    (run w req).1 = .ok [] ∧
    sentFrames (run w req).2 = [] ∧
    connectAttempts (run w req).2 = [(GUEST_IP, 50051)] ∧
    Event.sleepSecs 2 ∈ (run w req).2 ∧
    Event.spawnVmmRun ∈ (run w req).2 ∧
    Event.returnStream ∈ (run w req).2 := by
  have h := run_connect_fail w req l hl hnew hconf hconn
  rw [h]
  refine ⟨rfl, ?_, ?_, ?_, ?_, ?_⟩
  · rw [sentFrames_append, sentFrames_append, sentFrames_cmds, sentFrames_cmds]
    rfl
  · rw [connectAttempts_append, connectAttempts_append, connectAttempts_cmds,
        connectAttempts_cmds]
    rfl
  · simp
  · simp
  · simp

/-- Witness for the amended C3 at a concrete connect failure. -/
theorem C3_amended_witness :
    (run wConnFail reqRust).1 = .ok [] ∧
    sentFrames (run wConnFail reqRust).2 = [] ∧
    connectAttempts (run wConnFail reqRust).2 = [(GUEST_IP, 50051)] ∧
    Event.sleepSecs 2 ∈ (run wConnFail reqRust).2 ∧
    Event.spawnVmmRun ∈ (run wConnFail reqRust).2 ∧
    Event.returnStream ∈ (run wConnFail reqRust).2 :=
  C3_connect_fail_only_logged wConnFail reqRust .rust (by decide) rfl rfl rfl

/-- C6 counterexample: a request whose code field is empty is not
rejected: the run proceeds through VM construction (`VMM::new` is
reached), the empty code is forwarded to the agent inside the
ExecuteRequest, and a frame is delivered — there is no Validation of
emptiness anywhere. -/
theorem C6_counterexample :
    (run wOneFrame reqEmptyCode).1 = .ok [copyFrame frameA] ∧
    Event.vmmNew HOST_IP HOST_NETMASK GUEST_IP ∈ (run wOneFrame reqEmptyCode).2 ∧
    Event.executeCall (agentRequestOf reqEmptyCode .rust) ∈
      (run wOneFrame reqEmptyCode).2 ∧
    (agentRequestOf reqEmptyCode .rust).code = "" := by
  have h := run_success wOneFrame reqEmptyCode .rust (by decide) rfl rfl rfl rfl rfl
    (by decide)
  rw [h]
  exact ⟨rfl, by simp, by simp, rfl⟩

/-- C6 (amended): no emptiness validation is performed on `code`, `env`
or `workload_name`: a request with empty code on which every later stage
succeeds runs exactly like any other request — it reaches VM
construction, its (empty) code is forwarded to the agent in the
ExecuteRequest, and (the agent emitting at most the channel capacity of
4 frames, with normal close) the agent's frames are delivered. -/
theorem C6_no_emptiness_validation (w : World) (req : RunVmmRequest)
    (l : Language) (hl : Language.from_i32 req.language = some l)
    (hnew : w.vmmNewErr = none) (hconf : w.vmmConfigureErr = none)
    (hconn : w.connectOk = true) (hexec : w.executeErr = none)
    (hstream : w.agentStreamErr = none)
    (hcap : w.agentFrames.length ≤ channelCapacity) (hcode : req.code = "") :
    (run w req).1 = .ok (w.agentFrames.map copyFrame) ∧
    Event.vmmNew HOST_IP HOST_NETMASK GUEST_IP ∈ (run w req).2 ∧
    Event.executeCall (agentRequestOf req l) ∈ (run w req).2 ∧
    (agentRequestOf req l).code = "" := by
  have h := run_success w req l hl hnew hconf hconn hexec hstream hcap
  refine ⟨by rw [h], by rw [h]; simp, by rw [h]; simp, ?_⟩
  simp [agentRequestOf, hcode]

/-- Witness for the amended C6 at the concrete empty-code request. -/
theorem C6_amended_witness :
    (run wOneFrame reqEmptyCode).1 = .ok (wOneFrame.agentFrames.map copyFrame) ∧
    Event.vmmNew HOST_IP HOST_NETMASK GUEST_IP ∈ (run wOneFrame reqEmptyCode).2 ∧
    Event.executeCall (agentRequestOf reqEmptyCode .rust) ∈
      (run wOneFrame reqEmptyCode).2 ∧
    (agentRequestOf reqEmptyCode .rust).code = "" :=
  C6_no_emptiness_validation wOneFrame reqEmptyCode .rust (by decide)
    rfl rfl rfl rfl rfl (by decide) rfl

/-- C10 counterexample: at five agent frames on an otherwise all-success
run, `run` does not read the stream to completion and send every frame
before returning — it diverges on the fifth send: only the first four
frames are ever sent, and no returnStream event occurs, refuting the
claim's "sends every frame ... before it returns the response stream". -/
theorem C10_counterexample :
    wFive.agentFrames.length = 5 ∧
    (run wFive reqRust).1 = .diverged ∧
    Event.returnStream ∉ (run wFive reqRust).2 ∧
    sentFrames (run wFive reqRust).2 ≠ wFive.agentFrames.map copyFrame := by
  have h := run_overflow wFive reqRust .rust (by decide) rfl rfl rfl rfl
    (by decide)
  have hs : sentFrames (run wFive reqRust).2 =
      (wFive.agentFrames.take channelCapacity).map copyFrame := by
    rw [h.2, sentFrames_append, sentFrames_append, sentFrames_append,
        sentFrames_cmds, sentFrames_cmds, sentFrames_frames]
    rfl
  refine ⟨rfl, h.1, ?_, ?_⟩
  · rw [h.2]
    simp [List.mem_append, List.mem_map]
    exact returnStream_not_mem_sends channelCapacity wFive.agentFrames
  · rw [hs]
    decide

/-- C10 (amended): when the agent connection succeeds and the stream
closes normally, then as long as the agent emits at most
`channelCapacity` (= 4) frames, `run` reads the stream to completion and
sends every frame into the bounded channel before it returns the
receiver stream (all sendFrame events — the copied agent frames in
order — precede the single final returnStream event); when the agent
emits more than `channelCapacity` frames, `run` blocks forever on the
fifth send: only the first four frames are sent and the stream is never
returned.  Either way no frame is observable by the caller before the
handler returns. -/
theorem C10_sends_before_return_upto_capacity (w : World) (req : RunVmmRequest)
    (l : Language) (hl : Language.from_i32 req.language = some l)
    (hnew : w.vmmNewErr = none) (hconf : w.vmmConfigureErr = none)
    (hconn : w.connectOk = true) (hexec : w.executeErr = none)
    (hstream : w.agentStreamErr = none) :
    channelCapacity = 4 ∧
    (w.agentFrames.length ≤ channelCapacity →
      ∃ pre, (run w req).2 = pre ++ [Event.returnStream] ∧
        sentFrames pre = w.agentFrames.map copyFrame ∧
        Event.returnStream ∉ pre) ∧
    (channelCapacity < w.agentFrames.length →
      (run w req).1 = .diverged ∧
      sentFrames (run w req).2 =
        (w.agentFrames.take channelCapacity).map copyFrame ∧
      Event.returnStream ∉ (run w req).2) := by
  refine ⟨rfl, ?_, ?_⟩
  · intro hcap
    have h := run_success w req l hl hnew hconf hconn hexec hstream hcap
    refine ⟨(VmmService.get_kernel w.fs w.world w.curr_dir).2.map Event.cmd
        ++ (VmmService.get_initramfs w.fs w.world (toLowercase l.as_str_name)
              w.curr_dir).2.map Event.cmd
        ++ [Event.vmmNew HOST_IP HOST_NETMASK GUEST_IP,
            Event.vmmConfigure 1 4000 (VmmService.kernelPath w.curr_dir)
              (VmmService.initramfsPath w.curr_dir (toLowercase l.as_str_name)),
            Event.spawnVmmRun, Event.sleepSecs 2,
            Event.connectAttempt GUEST_IP 50051,
            Event.executeCall (agentRequestOf req l)]
        ++ w.agentFrames.map (fun r => Event.sendFrame (copyFrame r)),
        ?_, ?_, ?_⟩
    · rw [h]
    · rw [sentFrames_append, sentFrames_append, sentFrames_append,
          sentFrames_cmds, sentFrames_cmds, sentFrames_frames]
      rfl
    · simp [List.mem_append, List.mem_map]
  · intro hover
    have h := run_overflow w req l hl hnew hconf hconn hexec hover
    refine ⟨h.1, ?_, ?_⟩
    · rw [h.2, sentFrames_append, sentFrames_append, sentFrames_append,
          sentFrames_cmds, sentFrames_cmds, sentFrames_frames]
      rfl
    · rw [h.2]
      simp [List.mem_append, List.mem_map]
      exact returnStream_not_mem_sends channelCapacity w.agentFrames

/-- Witness for the amended C10: all sends precede the stream return at a
concrete two-frame run; divergence with only four sends at a concrete
five-frame run. -/
theorem C10_witness :
    channelCapacity = 4 ∧
    (∃ pre, (run wGood reqRust).2 = pre ++ [Event.returnStream] ∧
      sentFrames pre = wGood.agentFrames.map copyFrame ∧
      Event.returnStream ∉ pre) ∧
    ((run wFive reqRust).1 = .diverged ∧
     sentFrames (run wFive reqRust).2 =
       (wFive.agentFrames.take channelCapacity).map copyFrame ∧
     Event.returnStream ∉ (run wFive reqRust).2) :=
  ⟨rfl,
   (C10_sends_before_return_upto_capacity wGood reqRust .rust (by decide)
      rfl rfl rfl rfl rfl).2.1 (by decide),
   (C10_sends_before_return_upto_capacity wFive reqRust .rust (by decide)
      rfl rfl rfl rfl rfl).2.2 (by decide)⟩

end Cloudlet
